import Mathlib

/-!
Shallow embedding of the picstory-api authentication core
(`app/core/security.py` and `app/services/auth_service.py`) and proofs of
the specified properties of the token lifecycle and credential
verification subsystem.

Modelling conventions:
* Time is an absolute timestamp in seconds (`Int`); a Python `timedelta`
  is a number of seconds (`Int`).  `timedelta(minutes=m)` is `60 * m` and
  `timedelta(days=d)` is `86400 * d` seconds.
* A JWT is modelled as its semantic content: a signed claims map tagged
  with the signing key and algorithm (`Jwt.signed`), or a structurally
  corrupt string (`Jwt.corrupt`).  `jose.jwt.decode` succeeds exactly
  when the key and algorithm match and the embedded numeric `exp`, when
  present, is not in the past (python-jose rejects with
  `ExpiredSignatureError`, a `JWTError`, when `exp < now` with zero
  leeway); any `JWTError` is collapsed to `none`, as `verify_token` does.
* A Python `dict` of claims is an association list with unique keys;
  `dict.update` replaces the value in place when the key is present and
  appends otherwise, and `dict.copy` is implicit in the pure model.
* bcrypt is external to the repository and is modelled as the spec
  describes the Password Hasher: a salted one-way hash, fresh salts give
  distinct hash strings, and `checkpw` compares the password against the
  one stored in a well-formed hash, raising `ValueError` (modelled as
  `Except.error`) on a malformed hash.  Real bcrypt's 72-byte input
  truncation is not modelled.
* Python code that raises is modelled in `Except PyError`; functions
  that return `None` on failure return an `Option`.
-/

set_option autoImplicit false

namespace PicStory

/-- A JSON claim value as used in the token payloads of this service:
either a string (for `sub`, `username`, `type`) or an integer (for the
numeric `exp` timestamp). -/
inductive Value where
  | vStr (s : String)
  | vInt (n : Int)
  deriving DecidableEq, Repr

/-- A claims map (Python `dict`), as an association list with unique keys. -/
abbrev ClaimsMap := List (String × Value)

/-- Model of Python `dict.get`: the value at `k`, or `none`. -/
def dictGet (m : ClaimsMap) (k : String) : Option Value :=
  match m with
  | [] => none
  | (k', v) :: rest => if k' = k then some v else dictGet rest k

/-- Model of Python `dict.update({k: v})` on a copy: replace the value in
place when `k` is already a key, otherwise append the new entry. -/
def dictUpdate (m : ClaimsMap) (k : String) (v : Value) : ClaimsMap :=
  match m with
  | [] => [(k, v)]
  | (k', v') :: rest =>
    if k' = k then (k, v) :: rest else (k', v') :: dictUpdate rest k v

/-- Semantic model of an encoded JWT string: either a well-formed token
signed with some key and algorithm and carrying a claims map, or a string
that is not structurally a JWT at all. -/
inductive Jwt where
  | signed (key : String) (alg : String) (claims : ClaimsMap)
  | corrupt (raw : String)
  deriving DecidableEq, Repr

/-- The process-wide configuration of `app/config.py` that the
authentication core reads (`settings`). -/
structure Settings where
  secret_key : String
  algorithm : String
  access_token_expire_minutes : Int
  refresh_token_expire_days : Int
  deriving DecidableEq, Repr

/-- Errors raised by the modelled Python code.  `typeError` is the
`TypeError` raised by `datetime + None` in `create_token` when
`expires_delta` is `None`. -/
inductive PyError where
  | typeError
  deriving DecidableEq, Repr

/-- Model of `jose.jwt.encode(claims, key, algorithm)`. -/
def jwt_encode (claims : ClaimsMap) (key : String) (alg : String) : Jwt :=
  .signed key alg claims

/-- Model of `jose.jwt.decode(token, key, algorithms=[alg])` evaluated at
current time `now`: `none` stands for a raised `JWTError` (structural
corruption, signature/algorithm mismatch, expired `exp`, or a
non-numeric `exp` claim). -/
def jwt_decode (now : Int) (token : Jwt) (key : String) (alg : String) :
    Option ClaimsMap :=
  match token with
  | .corrupt _ => none
  | .signed k a claims =>
    if k = key ∧ a = alg then
      match dictGet claims "exp" with
      | some (.vInt e) => if e < now then none else some claims
      | some (.vStr _) => none
      | none => some claims
    else none

/-- Model of `security.verify_token(token, token_type)`: decode the token
and, when a non-empty `token_type` is supplied (Python truthiness: `None`
and `""` skip the check), reject the payload unless its `type` claim
equals `token_type`. -/
def verify_token (S : Settings) (now : Int) (token : Jwt)
    (token_type : Option String := none) : Option ClaimsMap :=
  match jwt_decode now token S.secret_key S.algorithm with
  | none => none
  | some payload =>
    match token_type with
    | none => some payload
    | some t =>
      if t = "" then some payload
      else if dictGet payload "type" = some (.vStr t) then some payload
      else none

/-- Model of `security.create_token(data, expires_delta)`: copy `data`,
set `exp` to `now + expires_delta`, and sign.  A `None` delta reaches
`expire += expires_delta` unchecked and raises `TypeError`. -/
def create_token (S : Settings) (now : Int) (data : ClaimsMap)
    (expires_delta : Option Int) : Except PyError Jwt :=
  match expires_delta with
  | none => .error .typeError
  | some d =>
    let to_encode := dictUpdate data "exp" (.vInt (now + d))
    .ok (jwt_encode to_encode S.secret_key S.algorithm)

/-- Model of `security.create_access_token(data, expires_delta=None)`:
copy `data`, set `type` to `"access"`, and delegate to `create_token`. -/
def create_access_token (S : Settings) (now : Int) (data : ClaimsMap)
    (expires_delta : Option Int := none) : Except PyError Jwt :=
  create_token S now (dictUpdate data "type" (.vStr "access")) expires_delta

/-- Model of `security.create_refresh_token(data, expires_delta=None)`:
copy `data`, set `type` to `"refresh"`, and delegate to `create_token`. -/
def create_refresh_token (S : Settings) (now : Int) (data : ClaimsMap)
    (expires_delta : Option Int := none) : Except PyError Jwt :=
  create_token S now (dictUpdate data "type" (.vStr "refresh")) expires_delta

/-- A stored password hash string.  `bc salt pw` is a well-formed
bcrypt hash of password `pw` under salt `salt`; `malformed raw` is a
string that bcrypt rejects as not a valid hash. -/
inductive StoredHash where
  | bc (salt : Nat) (pw : String)
  | malformed (raw : String)
  deriving DecidableEq, Repr

/-- Model of `bcrypt.checkpw(password, hashed)` as the spec describes the
Password Hasher: `ValueError` (`Except.error`) on a malformed hash,
otherwise whether the password matches the hashed one (idealized:
collision-free, no 72-byte truncation). -/
def bcrypt_checkpw (password : String) (hashed : StoredHash) :
    Except Unit Bool :=
  match hashed with
  | .malformed _ => .error ()
  | .bc _ pw => .ok (password == pw)

/-- Model of `bcrypt.hashpw(password, salt)`: a well-formed hash
recording the salt and (one-way, idealized) the password. -/
def bcrypt_hashpw (password : String) (salt : Nat) : StoredHash :=
  .bc salt password

/-- Model of `security.verify_password(plain_password, hashed_password)`;
propagates bcrypt's `ValueError` on a malformed hash. -/
def verify_password (plain_password : String) (hashed_password : StoredHash) :
    Except Unit Bool :=
  bcrypt_checkpw plain_password hashed_password

/-- Model of `security.get_password_hash(password)`; the fresh random
salt drawn by `bcrypt.gensalt()` is an explicit argument. -/
def get_password_hash (password : String) (salt : Nat) : StoredHash :=
  bcrypt_hashpw password salt

/-- The fields of `app/models/users.py` `UserModel` that the
authentication core reads. -/
structure UserModel where
  username : String
  email : String
  hashed_password : StoredHash
  deriving DecidableEq, Repr

/-- Model of `crud_users.get_user_by_email(session, email)`: the database
session is the list of stored users, queried by exact email match. -/
def get_user_by_email (db : List UserModel) (email : String) :
    Option UserModel :=
  match db with
  | [] => none
  | u :: rest => if u.email = email then some u else get_user_by_email rest email

/-- Modelled from the spec: the `Token` response schema of
`app/schemas/auth.py` (a file absent from the sources) — the Token Pair
`{access_token, refresh_token, token_type: "bearer"}`. -/
structure Token where
  access_token : Jwt
  refresh_token : Jwt
  token_type : String
  deriving DecidableEq, Repr

/-- Model of `auth_service.authenticate_user(session, email, password)`.
Faithful to the code: the boolean returned by `verify_password` is
discarded; only a raised `ValueError` (malformed stored hash) or a
missing user produces `None`. -/
def authenticate_user (db : List UserModel) (email : String)
    (password : String) : Option UserModel :=
  match get_user_by_email db email with
  | none => none
  | some user =>
    match verify_password password user.hashed_password with
    | .error _ => none
    | .ok _ => some user

/-- Model of `auth_service.create_tokens(user)`.  The code calls
`datetime.now` once inside each of the two `create_token` calls, so the
two current-time readings are distinct parameters `nowA` (taken while
building the access token) and `nowR` (taken while building the refresh
token). -/
def create_tokens (S : Settings) (nowA : Int) (nowR : Int)
    (user : UserModel) : Except PyError Token := do
  let access_token_expires : Int := 60 * S.access_token_expire_minutes
  let refresh_token_expires : Int := 86400 * S.refresh_token_expire_days
  let access_token ← create_access_token S nowA
    [("sub", .vStr user.email), ("username", .vStr user.username)]
    (some access_token_expires)
  let refresh_token ← create_refresh_token S nowR
    [("sub", .vStr user.email)]
    (some refresh_token_expires)
  pure ⟨access_token, refresh_token, "bearer"⟩

/-- Model of `auth_service.refresh_user_tokens(session, refresh_token)`
evaluated with the three successive `datetime.now` readings `nowV`
(inside `jwt.decode`), `nowA` and `nowR` (inside `create_tokens`).
`.ok none` is the `None` return; a non-string `sub` claim is collapsed to
`none` exactly as the code behaves (a falsy value fails `if not email`,
and a non-string truthy value never matches a stored email). -/
def refresh_user_tokens (S : Settings) (db : List UserModel)
    (nowV : Int) (nowA : Int) (nowR : Int) (refresh_token : Jwt) :
    Except PyError (Option Token) :=
  match verify_token S nowV refresh_token (some "refresh") with
  | none => pure none
  | some payload =>
    match dictGet payload "sub" with
    | some (.vStr email) =>
      if email = "" then pure none
      else
        match get_user_by_email db email with
        | none => pure none
        | some user => do
          let t ← create_tokens S nowA nowR user
          pure (some t)
    | _ => pure none

/-- The payload carried by a structurally well-formed token, independent
of signature checking; used to state what claims an issued token
embeds. -/
def jwtClaims (token : Jwt) : Option ClaimsMap :=
  match token with
  | .signed _ _ claims => some claims
  | .corrupt _ => none

/-- A concrete configuration used by the closed witness statements. -/
def testSettings : Settings :=
  { secret_key := "test-secret"
    algorithm := "HS256"
    access_token_expire_minutes := 30
    refresh_token_expire_days := 7 }

/-- A concrete stored user used by the closed witness statements. -/
def alice : UserModel :=
  { username := "alice"
    email := "a@x.com"
    hashed_password := get_password_hash "correct-horse" 1 }

/-- A concrete user with a corrupt stored hash, used by the closed
witness statements. -/
def mallory : UserModel :=
  { username := "mallory"
    email := "m@x.com"
    hashed_password := .malformed "not-a-bcrypt-hash" }

/-- The access token `create_tokens` issues for `alice` under
`testSettings` when the access-token clock reading is `0`. -/
def accessTok0 : Jwt :=
  .signed "test-secret" "HS256"
    [("sub", .vStr "a@x.com"), ("username", .vStr "alice"),
     ("type", .vStr "access"), ("exp", .vInt 1800)]

/-- The refresh token `create_tokens` issues for `alice` under
`testSettings` when the refresh-token clock reading is `0`. -/
def refreshTok0 : Jwt :=
  .signed "test-secret" "HS256"
    [("sub", .vStr "a@x.com"), ("type", .vStr "refresh"),
     ("exp", .vInt 604800)]

/-- The token pair `create_tokens testSettings 0 0 alice` produces. -/
def pair0 : Token :=
  { access_token := accessTok0
    refresh_token := refreshTok0
    token_type := "bearer" }

/-- The token `create_access_token` issues under `testSettings` at time
`0` with ttl `10` from a claims map that tries to smuggle a `type`. -/
def accessTok1 : Jwt :=
  .signed "test-secret" "HS256"
    [("type", .vStr "access"), ("exp", .vInt 10)]

/-- The token `create_refresh_token` issues under `testSettings` at time
`0` with ttl `10` from a claims map that tries to smuggle a `type`. -/
def refreshTok1 : Jwt :=
  .signed "test-secret" "HS256"
    [("type", .vStr "refresh"), ("exp", .vInt 10)]

/-- The token the bare `create_token` issues under `testSettings` at
time `0` with ttl `10` from a claims map carrying a forged `type`. -/
def plainTok1 : Jwt :=
  .signed "test-secret" "HS256"
    [("type", .vStr "evil"), ("exp", .vInt 10)]

/-- The token `create_token testSettings 100 [("sub", "a@x.com")]
(some 50)` produces. -/
def tokC5 : Jwt :=
  .signed "test-secret" "HS256"
    [("sub", .vStr "a@x.com"), ("exp", .vInt 150)]

/-!
Helper lemmas about the claims-map operations and the user store, shared
by the proofs below.
-/

/-- Reading back the key just written by `dictUpdate`. -/
theorem dictGet_dictUpdate_self (m : ClaimsMap) (k : String) (v : Value) :
    dictGet (dictUpdate m k v) k = some v := by
  induction m with
  | nil => simp [dictUpdate, dictGet]
  | cons hd tl ih =>
    obtain ⟨k', v'⟩ := hd
    by_cases h : k' = k <;> simp [dictUpdate, dictGet, h, ih]

/-- `dictUpdate` leaves every other key unchanged. -/
theorem dictGet_dictUpdate_ne (m : ClaimsMap) (k k' : String) (v : Value)
    (h : k' ≠ k) : dictGet (dictUpdate m k v) k' = dictGet m k' := by
  have hne : ¬ k = k' := fun hh => h hh.symm
  induction m with
  | nil => simp [dictUpdate, dictGet, hne]
  | cons hd tl ih =>
    obtain ⟨ka, va⟩ := hd
    by_cases hk : ka = k
    · subst hk
      simp [dictUpdate, dictGet, hne, h]
    · by_cases hk' : ka = k' <;>
        simp [dictUpdate, dictGet, hk, hk', ih, hne, h]

/-- A user found by `get_user_by_email` has the queried email. -/
theorem get_user_by_email_email (db : List UserModel) (email : String)
    (u : UserModel) (h : get_user_by_email db email = some u) :
    u.email = email := by
  induction db with
  | nil => simp [get_user_by_email] at h
  | cons hd tl ih =>
    by_cases hh : hd.email = email
    · simp only [get_user_by_email, if_pos hh] at h
      cases h
      exact hh
    · simp only [get_user_by_email, if_neg hh] at h
      exact ih h

/-- Closed form of `create_access_token` on a present ttl. -/
theorem create_access_token_eq (S : Settings) (now : Int) (data : ClaimsMap)
    (d : Int) :
    create_access_token S now data (some d)
      = .ok (.signed S.secret_key S.algorithm
          (dictUpdate (dictUpdate data "type" (.vStr "access")) "exp"
            (.vInt (now + d)))) := rfl

/-- Closed form of `create_refresh_token` on a present ttl. -/
theorem create_refresh_token_eq (S : Settings) (now : Int) (data : ClaimsMap)
    (d : Int) :
    create_refresh_token S now data (some d)
      = .ok (.signed S.secret_key S.algorithm
          (dictUpdate (dictUpdate data "type" (.vStr "refresh")) "exp"
            (.vInt (now + d)))) := rfl

/-- Closed form of `create_tokens`: the exact claims lists of the two
issued tokens, each stamped from its own clock reading. -/
theorem create_tokens_eq (S : Settings) (nowA nowR : Int) (u : UserModel) :
    create_tokens S nowA nowR u
      = .ok
          { access_token := .signed S.secret_key S.algorithm
              [("sub", .vStr u.email), ("username", .vStr u.username),
               ("type", .vStr "access"),
               ("exp", .vInt (nowA + 60 * S.access_token_expire_minutes))]
            refresh_token := .signed S.secret_key S.algorithm
              [("sub", .vStr u.email), ("type", .vStr "refresh"),
               ("exp", .vInt (nowR + 86400 * S.refresh_token_expire_days))]
            token_type := "bearer" } := rfl

/-- C1: the claim says `authenticate_user` with a correct email but a
password that does not match the stored hash returns `None`
(`InvalidCredentials`).  The code at `auth_service.py:42-47` discards the
boolean returned by `verify_password` and returns the user
unconditionally: for the stored user `alice` (password
`"correct-horse"`), authenticating with the wrong password
`"totally-wrong"` verifies to `false` yet returns `alice`. -/
theorem authenticate_user_ignores_password_mismatch :
    authenticate_user [alice] "a@x.com" "totally-wrong" = some alice ∧
    verify_password "totally-wrong" alice.hashed_password = .ok false := by
  constructor <;> rfl

/-- C6: `authenticate_user` with an unknown email returns `None`, the
same failure value as every other authentication failure, and a
malformed stored hash (bcrypt's `ValueError`) also surfaces as that same
`None`, never as success. -/
theorem authenticate_user_unknown_email_or_malformed_hash
    (db : List UserModel) (email password : String) :
    (get_user_by_email db email = none →
      authenticate_user db email password = none) ∧
    (∀ u raw, get_user_by_email db email = some u →
      u.hashed_password = .malformed raw →
      authenticate_user db email password = none) := by
  constructor
  · intro h
    simp [authenticate_user, h]
  · intro u raw hu hmal
    simp [authenticate_user, hu, verify_password, bcrypt_checkpw, hmal]

/-- C6 witness: the unknown-email case on an empty store and the
malformed-hash case on the stored user `mallory`, both evaluating to
`None`. -/
theorem authenticate_user_unknown_email_or_malformed_hash_witness :
    authenticate_user [] "z@x.com" "pw" = none ∧
    authenticate_user [mallory] "m@x.com" "pw" = none :=
  ⟨(authenticate_user_unknown_email_or_malformed_hash [] "z@x.com" "pw").1
      (by decide),
   (authenticate_user_unknown_email_or_malformed_hash [mallory] "m@x.com"
      "pw").2 mallory "not-a-bcrypt-hash" (by decide) (by decide)⟩

/-- C8: verifying a password against its own hash succeeds; against the
hash of a different password it fails; and hashing the same password
under the two distinct salts of two separate calls yields two different
hash values, both verifying true against the password. -/
theorem password_hash_roundtrip (p p1 p2 : String) (s s1 s2 : Nat)
    (hne : p1 ≠ p2) (hs : s1 ≠ s2) :
    verify_password p (get_password_hash p s) = .ok true ∧
    verify_password p1 (get_password_hash p2 s) = .ok false ∧
    get_password_hash p s1 ≠ get_password_hash p s2 ∧
    verify_password p (get_password_hash p s1) = .ok true ∧
    verify_password p (get_password_hash p s2) = .ok true := by
  refine ⟨?_, ?_, ?_, ?_, ?_⟩ <;>
    simp [verify_password, get_password_hash, bcrypt_checkpw, bcrypt_hashpw,
      hne, hs]

/-- C8 witness: the round-trip properties evaluated at the passwords
`"pw1" ≠ "pw2"` and the salts `1 ≠ 2`. -/
theorem password_hash_roundtrip_witness :
    ("pw1" : String) ≠ "pw2" ∧ (1 : Nat) ≠ 2 ∧
    (verify_password "pw1" (get_password_hash "pw1" 1) = .ok true ∧
     verify_password "pw1" (get_password_hash "pw2" 1) = .ok false ∧
     get_password_hash "pw1" 1 ≠ get_password_hash "pw1" 2 ∧
     verify_password "pw1" (get_password_hash "pw1" 1) = .ok true ∧
     verify_password "pw1" (get_password_hash "pw1" 2) = .ok true) :=
  ⟨by decide, by decide,
   password_hash_roundtrip "pw1" "pw1" "pw2" 1 1 2 (by decide) (by decide)⟩

/-- C10: `create_access_token` and `create_refresh_token` default
`expires_delta` to `None`, but `create_token` adds it to the current
time unchecked, so every call without an explicit expiry duration raises
`TypeError`; with a concrete duration supplied, token creation always
succeeds. -/
theorem create_token_requires_expires_delta (S : Settings) (now : Int)
    (data : ClaimsMap) :
    create_access_token S now data none = .error .typeError ∧
    create_refresh_token S now data none = .error .typeError ∧
    create_token S now data none = .error .typeError ∧
    ∀ d : Int, ∃ tok, create_token S now data (some d) = .ok tok :=
  ⟨rfl, rfl, rfl, fun _ => ⟨_, rfl⟩⟩

/-- C2 counterexample: the claim says both expiries of a
`create_tokens` pair are computed from one shared "now".  The code reads
the clock separately inside each `create_token` call: with clock
readings `0` (access) and `1` (refresh) for `alice` under
`testSettings`, the access exp is `1800` and the refresh exp is
`604801`, so access exp minus access ttl (`0`) differs from refresh exp
minus refresh ttl (`1`). -/
theorem create_tokens_base_timestamps_differ :
    ((create_tokens testSettings 0 1 alice).toOption.bind
      (fun p => (jwtClaims p.access_token).bind (fun c => dictGet c "exp"))
        = some (.vInt 1800)) ∧
    ((create_tokens testSettings 0 1 alice).toOption.bind
      (fun p => (jwtClaims p.refresh_token).bind (fun c => dictGet c "exp"))
        = some (.vInt 604801)) ∧
    ((1800 : Int) - 60 * testSettings.access_token_expire_minutes ≠
      604801 - 86400 * testSettings.refresh_token_expire_days) := by
  refine ⟨rfl, rfl, by decide⟩

/-- C2 (amended): each of the two `create_token` calls inside
`create_tokens` stamps its token from its own clock reading, so the
access exp is `nowA + access ttl`, the refresh exp is
`nowR + refresh ttl`, and the two base timestamps (exp minus ttl) agree
exactly when the two clock readings coincide. -/
theorem create_tokens_exp_bases (S : Settings) (nowA nowR : Int)
    (u : UserModel) (p : Token)
    (h : create_tokens S nowA nowR u = .ok p) :
    ((jwtClaims p.access_token).bind (fun c => dictGet c "exp")
        = some (.vInt (nowA + 60 * S.access_token_expire_minutes))) ∧
    ((jwtClaims p.refresh_token).bind (fun c => dictGet c "exp")
        = some (.vInt (nowR + 86400 * S.refresh_token_expire_days))) ∧
    ((nowA + 60 * S.access_token_expire_minutes)
          - 60 * S.access_token_expire_minutes
        = (nowR + 86400 * S.refresh_token_expire_days)
          - 86400 * S.refresh_token_expire_days
      ↔ nowA = nowR) := by
  rw [create_tokens_eq] at h
  cases h
  refine ⟨by simp [jwtClaims, dictGet], by simp [jwtClaims, dictGet], ?_⟩
  constructor <;> intro hh <;> omega

/-- C2 (amended) witness: `create_tokens testSettings 0 0 alice`
evaluates to `pair0`, whose two exp claims are `1800` and `604800`, with
both base timestamps equal to the shared clock reading `0`. -/
theorem create_tokens_exp_bases_witness :
    ((jwtClaims pair0.access_token).bind (fun c => dictGet c "exp")
        = some (.vInt (0 + 60 * testSettings.access_token_expire_minutes))) ∧
    ((jwtClaims pair0.refresh_token).bind (fun c => dictGet c "exp")
        = some (.vInt (0 + 86400 * testSettings.refresh_token_expire_days))) ∧
    (((0 : Int) + 60 * testSettings.access_token_expire_minutes)
          - 60 * testSettings.access_token_expire_minutes
        = ((0 : Int) + 86400 * testSettings.refresh_token_expire_days)
          - 86400 * testSettings.refresh_token_expire_days
      ↔ (0 : Int) = 0) :=
  create_tokens_exp_bases testSettings 0 0 alice pair0 (by rfl)

/-- C7: every pair issued by `create_tokens` has an access token
carrying exactly `sub` (the email), `username`, `type = "access"` and
`exp`, and a refresh token carrying exactly `sub`, `type = "refresh"`
and `exp` — in particular no `username` claim on the refresh token. -/
theorem create_tokens_claim_shape (S : Settings) (nowA nowR : Int)
    (u : UserModel) (p : Token)
    (h : create_tokens S nowA nowR u = .ok p) :
    jwtClaims p.access_token = some
      [("sub", .vStr u.email), ("username", .vStr u.username),
       ("type", .vStr "access"),
       ("exp", .vInt (nowA + 60 * S.access_token_expire_minutes))] ∧
    jwtClaims p.refresh_token = some
      [("sub", .vStr u.email), ("type", .vStr "refresh"),
       ("exp", .vInt (nowR + 86400 * S.refresh_token_expire_days))] ∧
    (∀ c, jwtClaims p.refresh_token = some c →
      dictGet c "username" = none) ∧
    p.token_type = "bearer" := by
  rw [create_tokens_eq] at h
  cases h
  refine ⟨rfl, rfl, ?_, rfl⟩
  intro c hc
  cases hc
  simp [dictGet]

/-- C7 witness: the claim lists of the concrete pair
`create_tokens testSettings 0 0 alice = .ok pair0`. -/
theorem create_tokens_claim_shape_witness :
    jwtClaims pair0.access_token = some
      [("sub", .vStr "a@x.com"), ("username", .vStr "alice"),
       ("type", .vStr "access"), ("exp", .vInt 1800)] ∧
    jwtClaims pair0.refresh_token = some
      [("sub", .vStr "a@x.com"), ("type", .vStr "refresh"),
       ("exp", .vInt 604800)] ∧
    (∀ c, jwtClaims pair0.refresh_token = some c →
      dictGet c "username" = none) ∧
    pair0.token_type = "bearer" :=
  create_tokens_claim_shape testSettings 0 0 alice pair0 (by rfl)

/-- C9 counterexample: the claim says `create_token` (like the two
wrappers) overwrites a caller-supplied `type` entry.  It does not: fed a
claims map carrying `type = "evil"`, the token it signs still carries
`type = "evil"`, which is neither of the issuer-controlled tags. -/
theorem create_token_keeps_caller_type :
    create_token testSettings 0 [("type", .vStr "evil")] (some 10)
      = .ok plainTok1 ∧
    jwtClaims plainTok1
      = some [("type", .vStr "evil"), ("exp", .vInt 10)] ∧
    dictGet [("type", Value.vStr "evil"), ("exp", Value.vInt 10)] "type"
      = some (.vStr "evil") ∧
    Value.vStr "evil" ≠ Value.vStr "access" ∧
    Value.vStr "evil" ≠ Value.vStr "refresh" :=
  ⟨rfl, rfl, rfl, by decide, by decide⟩

/-- C9 (amended): `create_access_token` and `create_refresh_token`
overwrite any caller-supplied `type` entry with `"access"` resp.
`"refresh"`, and all three creators overwrite any caller-supplied `exp`
entry with `now + expires_delta` (on copies — the argument map itself is
never mutated); the bare `create_token`, however, passes a
caller-supplied `type` entry through unchanged. -/
theorem token_issuers_control_type_and_exp (S : Settings) (now d : Int)
    (data : ClaimsMap) :
    (∀ tok, create_access_token S now data (some d) = .ok tok →
      (jwtClaims tok).bind (fun c => dictGet c "type")
          = some (.vStr "access") ∧
      (jwtClaims tok).bind (fun c => dictGet c "exp")
          = some (.vInt (now + d))) ∧
    (∀ tok, create_refresh_token S now data (some d) = .ok tok →
      (jwtClaims tok).bind (fun c => dictGet c "type")
          = some (.vStr "refresh") ∧
      (jwtClaims tok).bind (fun c => dictGet c "exp")
          = some (.vInt (now + d))) ∧
    (∀ tok, create_token S now data (some d) = .ok tok →
      (jwtClaims tok).bind (fun c => dictGet c "exp")
          = some (.vInt (now + d)) ∧
      (jwtClaims tok).bind (fun c => dictGet c "type")
          = dictGet data "type") := by
  refine ⟨?_, ?_, ?_⟩
  · intro tok h
    rw [create_access_token_eq] at h
    injection h with h
    subst h
    constructor
    · simp only [jwtClaims, Option.bind]
      rw [dictGet_dictUpdate_ne _ _ _ _ (by decide), dictGet_dictUpdate_self]
    · simp only [jwtClaims, Option.bind]
      rw [dictGet_dictUpdate_self]
  · intro tok h
    rw [create_refresh_token_eq] at h
    injection h with h
    subst h
    constructor
    · simp only [jwtClaims, Option.bind]
      rw [dictGet_dictUpdate_ne _ _ _ _ (by decide), dictGet_dictUpdate_self]
    · simp only [jwtClaims, Option.bind]
      rw [dictGet_dictUpdate_self]
  · intro tok h
    simp only [create_token, jwt_encode] at h
    injection h with h
    subst h
    constructor
    · simp only [jwtClaims, Option.bind]
      rw [dictGet_dictUpdate_self]
    · simp only [jwtClaims, Option.bind]
      rw [dictGet_dictUpdate_ne _ _ _ _ (by decide)]

/-- C9 (amended) witness: the three creators applied at time `0` with
ttl `10` to the forged map `[("type", "evil")]` produce `accessTok1`,
`refreshTok1` and `plainTok1`, whose `type`/`exp` claims evaluate as the
amended claim states. -/
theorem token_issuers_control_type_and_exp_witness :
    ((jwtClaims accessTok1).bind (fun c => dictGet c "type")
        = some (.vStr "access") ∧
     (jwtClaims accessTok1).bind (fun c => dictGet c "exp")
        = some (.vInt 10)) ∧
    ((jwtClaims refreshTok1).bind (fun c => dictGet c "type")
        = some (.vStr "refresh") ∧
     (jwtClaims refreshTok1).bind (fun c => dictGet c "exp")
        = some (.vInt 10)) ∧
    ((jwtClaims plainTok1).bind (fun c => dictGet c "exp")
        = some (.vInt 10) ∧
     (jwtClaims plainTok1).bind (fun c => dictGet c "type")
        = some (.vStr "evil")) :=
  ⟨(token_issuers_control_type_and_exp testSettings 0 10
      [("type", .vStr "evil")]).1 accessTok1 (by rfl),
   (token_issuers_control_type_and_exp testSettings 0 10
      [("type", .vStr "evil")]).2.1 refreshTok1 (by rfl),
   (token_issuers_control_type_and_exp testSettings 0 10
      [("type", .vStr "evil")]).2.2 plainTok1 (by rfl)⟩

/-- C5: a token created with `exp = now + ttl` for `ttl > 0` decodes
successfully at time `now`, returning the input claims plus the numeric
`exp` field, and decodes to `None` at any time past the expiry
instant. -/
theorem create_token_decode_roundtrip (S : Settings) (now ttl : Int)
    (data : ClaimsMap) (tok : Jwt)
    (httl : 0 < ttl) (h : create_token S now data (some ttl) = .ok tok) :
    verify_token S now tok
        = some (dictUpdate data "exp" (.vInt (now + ttl))) ∧
    ∀ t2, now + ttl < t2 → verify_token S t2 tok = none := by
  simp only [create_token, jwt_encode] at h
  injection h with h
  subst h
  have hexp : ¬ (now + ttl < now) := by omega
  constructor
  · simp [verify_token, jwt_decode, dictGet_dictUpdate_self, hexp]
  · intro t2 ht2
    simp [verify_token, jwt_decode, dictGet_dictUpdate_self, ht2]

/-- C5 witness: the token `tokC5` issued at time `100` with ttl `50`
from the claims `[("sub", "a@x.com")]` decodes at time `100` to the
claims with `exp = 150`, and decodes to `None` at time `151`. -/
theorem create_token_decode_roundtrip_witness :
    verify_token testSettings 100 tokC5
        = some [("sub", .vStr "a@x.com"), ("exp", .vInt 150)] ∧
    verify_token testSettings 151 tokC5 = none :=
  ⟨(create_token_decode_roundtrip testSettings 100 50
      [("sub", .vStr "a@x.com")] tokC5 (by decide) (by rfl)).1,
   (create_token_decode_roundtrip testSettings 100 50
      [("sub", .vStr "a@x.com")] tokC5 (by decide) (by rfl)).2
     151 (by decide)⟩

/-- C3: `verify_token` with a non-empty expected type fails (returns
`None`) exactly when the underlying decode raises (structural
corruption, signature/algorithm mismatch, expired or non-numeric `exp`)
or the decoded `type` claim differs from the expected type; every decode
failure cause for both token shapes is characterized, and every token
issued by `create_access_token` fails verification as `"refresh"` while
every token issued by `create_refresh_token` fails verification as
`"access"`. -/
theorem verify_token_type_discrimination (S : Settings) (now : Int)
    (tok : Jwt) (t : String) (ht : t ≠ "") :
    (verify_token S now tok (some t) = none ↔
      jwt_decode now tok S.secret_key S.algorithm = none ∨
      ∃ c, jwt_decode now tok S.secret_key S.algorithm = some c ∧
        dictGet c "type" ≠ some (.vStr t)) ∧
    (∀ raw, tok = .corrupt raw →
      jwt_decode now tok S.secret_key S.algorithm = none) ∧
    (∀ k a c, tok = .signed k a c →
      (jwt_decode now tok S.secret_key S.algorithm = none ↔
        ¬(k = S.secret_key ∧ a = S.algorithm) ∨
        (∃ e, dictGet c "exp" = some (.vInt e) ∧ e < now) ∨
        (∃ s, dictGet c "exp" = some (.vStr s)))) ∧
    (∀ now2 data d tok2, create_access_token S now2 data (some d) = .ok tok2 →
      verify_token S now tok2 (some "refresh") = none) ∧
    (∀ now2 data d tok2, create_refresh_token S now2 data (some d) = .ok tok2 →
      verify_token S now tok2 (some "access") = none) := by
  refine ⟨?_, ?_, ?_, ?_, ?_⟩
  · cases hd : jwt_decode now tok S.secret_key S.algorithm with
    | none => simp [verify_token, hd]
    | some payload =>
      by_cases hty : dictGet payload "type" = some (.vStr t) <;>
        simp [verify_token, hd, ht, hty]
  · intro raw hraw
    subst hraw
    rfl
  · intro k a c hsig
    subst hsig
    by_cases hka : k = S.secret_key ∧ a = S.algorithm
    · obtain ⟨h1, h2⟩ := hka
      subst h1
      subst h2
      cases hexp : dictGet c "exp" with
      | none => simp [jwt_decode, hexp]
      | some v =>
        cases v with
        | vStr s => simp [jwt_decode, hexp]
        | vInt e =>
          by_cases hlt : e < now <;> simp [jwt_decode, hexp, hlt]
    · simp [jwt_decode, hka]
  · intro now2 data d tok2 h
    rw [create_access_token_eq] at h
    injection h with h
    subst h
    have hty : dictGet
        (dictUpdate (dictUpdate data "type" (Value.vStr "access")) "exp"
          (Value.vInt (now2 + d))) "type" = some (.vStr "access") := by
      rw [dictGet_dictUpdate_ne _ _ _ _ (by decide), dictGet_dictUpdate_self]
    by_cases hlt : now2 + d < now <;>
      simp [verify_token, jwt_decode, dictGet_dictUpdate_self, hlt, hty]
  · intro now2 data d tok2 h
    rw [create_refresh_token_eq] at h
    injection h with h
    subst h
    have hty : dictGet
        (dictUpdate (dictUpdate data "type" (Value.vStr "refresh")) "exp"
          (Value.vInt (now2 + d))) "type" = some (.vStr "refresh") := by
      rw [dictGet_dictUpdate_ne _ _ _ _ (by decide), dictGet_dictUpdate_self]
    by_cases hlt : now2 + d < now <;>
      simp [verify_token, jwt_decode, dictGet_dictUpdate_self, hlt, hty]

/-- C3 witness: the concrete access token `accessTok0` (unexpired at
time `0`) fails verification when `"refresh"` is expected. -/
theorem verify_token_type_discrimination_witness :
    verify_token testSettings 0 accessTok0 (some "refresh") = none :=
  (verify_token_type_discrimination testSettings 0 accessTok0 "refresh"
      (by decide)).2.2.2.1
    0 [("sub", .vStr "a@x.com"), ("username", .vStr "alice")] 1800
    accessTok0 (by rfl)

/-- Closed form of `refresh_user_tokens` on the success path: when the
refresh token verifies, carries a non-empty string `sub`, and the user
exists, the result is the freshly created pair for that user. -/
theorem refresh_user_tokens_success_eq (S : Settings) (db : List UserModel)
    (nowV nowA nowR : Int) (rt : Jwt) (payload : ClaimsMap)
    (email : String) (user : UserModel)
    (hd : verify_token S nowV rt (some "refresh") = some payload)
    (hsub : dictGet payload "sub" = some (.vStr email))
    (hemp : ¬ email = "")
    (hu : get_user_by_email db email = some user) :
    refresh_user_tokens S db nowV nowA nowR rt
      = .ok (some
          { access_token := .signed S.secret_key S.algorithm
              [("sub", .vStr user.email), ("username", .vStr user.username),
               ("type", .vStr "access"),
               ("exp", .vInt (nowA + 60 * S.access_token_expire_minutes))]
            refresh_token := .signed S.secret_key S.algorithm
              [("sub", .vStr user.email), ("type", .vStr "refresh"),
               ("exp", .vInt (nowR + 86400 * S.refresh_token_expire_days))]
            token_type := "bearer" }) := by
  simp [refresh_user_tokens, hd, hsub, hemp, hu, create_tokens_eq,
    Bind.bind, Except.bind, pure, Except.pure]

/-- C4: `refresh_user_tokens` never raises, returns `None` exactly when
the token does not verify as an unexpired `"refresh"` token carrying a
non-empty string `sub` that maps to a stored user, and on a verifying
refresh token for a still-existing user returns a fresh pair whose
access token verifies as `"access"` and carries the same `sub`. -/
theorem refresh_user_tokens_spec (S : Settings) (db : List UserModel)
    (nowV nowA nowR : Int) (rt : Jwt)
    (hm : 0 ≤ S.access_token_expire_minutes) :
    (refresh_user_tokens S db nowV nowA nowR rt = .ok none ↔
      ¬ ∃ c em u, verify_token S nowV rt (some "refresh") = some c ∧
        dictGet c "sub" = some (.vStr em) ∧ em ≠ "" ∧
        get_user_by_email db em = some u) ∧
    (∀ c em u, verify_token S nowV rt (some "refresh") = some c →
      dictGet c "sub" = some (.vStr em) → em ≠ "" →
      get_user_by_email db em = some u →
      ∃ p, refresh_user_tokens S db nowV nowA nowR rt = .ok (some p) ∧
        ∃ c2, verify_token S nowA p.access_token (some "access") = some c2 ∧
          dictGet c2 "sub" = some (.vStr em)) := by
  have haccess : ∀ u : UserModel,
      verify_token S nowA
        (Jwt.signed S.secret_key S.algorithm
          [("sub", .vStr u.email), ("username", .vStr u.username),
           ("type", .vStr "access"),
           ("exp", .vInt (nowA + 60 * S.access_token_expire_minutes))])
        (some "access")
      = some
          [("sub", .vStr u.email), ("username", .vStr u.username),
           ("type", .vStr "access"),
           ("exp", .vInt (nowA + 60 * S.access_token_expire_minutes))] := by
    intro u
    have hexp : ¬ (nowA + 60 * S.access_token_expire_minutes < nowA) := by
      omega
    simp [verify_token, jwt_decode, dictGet, hexp]
  cases hd : verify_token S nowV rt (some "refresh") with
  | none =>
    have ha : refresh_user_tokens S db nowV nowA nowR rt = .ok none := by
      simp [refresh_user_tokens, hd, pure, Except.pure]
    have hb : ¬ ∃ c em u, (none : Option ClaimsMap) = some c ∧
        dictGet c "sub" = some (.vStr em) ∧ em ≠ "" ∧
        get_user_by_email db em = some u := by
      rintro ⟨c, em, u, hc, -, -, -⟩
      exact Option.noConfusion hc
    exact ⟨iff_of_true ha hb,
      fun c em u hc hem hne huser =>
        (hb ⟨c, em, u, hc, hem, hne, huser⟩).elim⟩
  | some payload =>
    have hpc : ∀ c : ClaimsMap, some payload = some c → c = payload := by
      intro c hc
      injection hc with hc
      exact hc.symm
    cases hsub : dictGet payload "sub" with
    | none =>
      have ha : refresh_user_tokens S db nowV nowA nowR rt = .ok none := by
        simp [refresh_user_tokens, hd, hsub, pure, Except.pure]
      have hb : ¬ ∃ c em u, some payload = some c ∧
          dictGet c "sub" = some (.vStr em) ∧ em ≠ "" ∧
          get_user_by_email db em = some u := by
        rintro ⟨c, em, u, hc, hem, -, -⟩
        rw [hpc c hc, hsub] at hem
        exact Option.noConfusion hem
      exact ⟨iff_of_true ha hb,
        fun c em u hc hem hne huser =>
          (hb ⟨c, em, u, hc, hem, hne, huser⟩).elim⟩
    | some v =>
      cases v with
      | vInt n =>
        have ha : refresh_user_tokens S db nowV nowA nowR rt = .ok none := by
          simp [refresh_user_tokens, hd, hsub, pure, Except.pure]
        have hb : ¬ ∃ c em u, some payload = some c ∧
            dictGet c "sub" = some (.vStr em) ∧ em ≠ "" ∧
            get_user_by_email db em = some u := by
          rintro ⟨c, em, u, hc, hem, -, -⟩
          rw [hpc c hc, hsub] at hem
          simp at hem
        exact ⟨iff_of_true ha hb,
          fun c em u hc hem hne huser =>
            (hb ⟨c, em, u, hc, hem, hne, huser⟩).elim⟩
      | vStr email =>
        have hemsub : ∀ em, dictGet payload "sub" = some (.vStr em) →
            em = email := by
          intro em hem
          rw [hsub] at hem
          injection hem with hem
          injection hem with hem
          exact hem.symm
        by_cases hemp : email = ""
        · subst hemp
          have ha : refresh_user_tokens S db nowV nowA nowR rt
              = .ok none := by
            simp [refresh_user_tokens, hd, hsub, pure, Except.pure]
          have hb : ¬ ∃ c em u, some payload = some c ∧
              dictGet c "sub" = some (.vStr em) ∧ em ≠ "" ∧
              get_user_by_email db em = some u := by
            rintro ⟨c, em, u, hc, hem, hne, -⟩
            rw [hpc c hc] at hem
            exact hne (hemsub em hem)
          exact ⟨iff_of_true ha hb,
            fun c em u hc hem hne huser =>
              (hb ⟨c, em, u, hc, hem, hne, huser⟩).elim⟩
        · cases hu : get_user_by_email db email with
          | none =>
            have ha : refresh_user_tokens S db nowV nowA nowR rt
                = .ok none := by
              simp [refresh_user_tokens, hd, hsub, hemp, hu, pure,
                Except.pure]
            have hb : ¬ ∃ c em u, some payload = some c ∧
                dictGet c "sub" = some (.vStr em) ∧ em ≠ "" ∧
                get_user_by_email db em = some u := by
              rintro ⟨c, em, u, hc, hem, -, huser⟩
              rw [hpc c hc] at hem
              rw [hemsub em hem, hu] at huser
              exact Option.noConfusion huser
            exact ⟨iff_of_true ha hb,
              fun c em u hc hem hne huser =>
                (hb ⟨c, em, u, hc, hem, hne, huser⟩).elim⟩
          | some user =>
            have heq := refresh_user_tokens_success_eq S db nowV nowA nowR
              rt payload email user hd hsub hemp hu
            have hnn : ¬ refresh_user_tokens S db nowV nowA nowR rt
                = .ok none := by
              rw [heq]
              simp
            have hex : ∃ c em u, some payload = some c ∧
                dictGet c "sub" = some (.vStr em) ∧ em ≠ "" ∧
                get_user_by_email db em = some u :=
              ⟨payload, email, user, rfl, hsub, hemp, hu⟩
            refine ⟨iff_of_false hnn (not_not_intro hex), ?_⟩
            intro c em u hc hem hne huser
            rw [hpc c hc] at hem
            have hemeq := hemsub em hem
            subst hemeq
            have he := get_user_by_email_email db em user hu
            refine ⟨_, heq, _, haccess user, ?_⟩
            simp [dictGet, he]

/-- C4 witness: the characterization instantiated for the store
`[alice]` and the concrete unexpired refresh token `refreshTok0` at
clock reading `0`, where the access-ttl hypothesis holds
(`0 ≤ 30`). -/
theorem refresh_user_tokens_spec_witness :
    (0 : Int) ≤ testSettings.access_token_expire_minutes ∧
    ((refresh_user_tokens testSettings [alice] 0 0 0 refreshTok0
          = .ok none ↔
        ¬ ∃ c em u,
          verify_token testSettings 0 refreshTok0 (some "refresh")
              = some c ∧
          dictGet c "sub" = some (.vStr em) ∧ em ≠ "" ∧
          get_user_by_email [alice] em = some u) ∧
     (∀ c em u,
        verify_token testSettings 0 refreshTok0 (some "refresh")
            = some c →
        dictGet c "sub" = some (.vStr em) → em ≠ "" →
        get_user_by_email [alice] em = some u →
        ∃ p, refresh_user_tokens testSettings [alice] 0 0 0 refreshTok0
            = .ok (some p) ∧
          ∃ c2, verify_token testSettings 0 p.access_token (some "access")
              = some c2 ∧
            dictGet c2 "sub" = some (.vStr em))) :=
  ⟨by decide,
   refresh_user_tokens_spec testSettings [alice] 0 0 0 refreshTok0
     (by decide)⟩

end PicStory
